import Mathlib

/-!
Shallow embedding of the task/item tracking backend: `models.py`, `auth.py`,
`schemas.py` and `api.py`, together with the Todo listing endpoint described
by the specification.  Python float arithmetic (IEEE-754 binary64) is
modelled exactly: a double in the magnitude range `[1/4, 8)` is represented
by its numerator at the fixed scale `2 ^ 54`, and each arithmetic step
rounds its exact rational result to the grid of representable doubles with
round-half-to-even.
-/

/-- Round the fraction `a / b` (with `b > 0`) to the nearest integer,
ties to even: IEEE-754 default rounding. -/
def roundHalfEvenZ (a b : ℤ) : ℤ :=
  let q := a / b
  let r := a % b
  if 2 * r < b then q
  else if b < 2 * r then q + 1
  else if q % 2 = 0 then q else q + 1

/-- Round the real value `p / q` to the grid of integer multiples of
`s / 2 ^ 54`, returning the scaled numerator (a multiple of `s`). -/
def roundAtStep (s p q : ℤ) : ℤ :=
  s * roundHalfEvenZ (p * 2 ^ 54) (s * q)

/-- Round the positive real value `p / q` (with `q > 0`) to the nearest
IEEE-754 double, returned as a numerator at scale `2 ^ 54`.  The grid of
representable doubles has spacing `2 ^ (e - 52)` on `[2 ^ e, 2 ^ (e + 1))`;
the branches cover the magnitude range `[0, 8)` that arises in the
priority-score computation. -/
def roundDoubleZ (p q : ℤ) : ℤ :=
  if 2 * p < q then roundAtStep 1 p q
  else if p < q then roundAtStep 2 p q
  else if p < 2 * q then roundAtStep 4 p q
  else if p < 4 * q then roundAtStep 8 p q
  else roundAtStep 16 p q

/-- The IEEE-754 double denoted by the literal `0.6` in
`Todo.priority_score`, at scale `2 ^ 54`. -/
def d06Z : ℤ := roundDoubleZ 6 10

/-- The IEEE-754 double denoted by the literal `0.4` in
`Todo.priority_score`, at scale `2 ^ 54`. -/
def d04Z : ℤ := roundDoubleZ 4 10

/-- Double-precision multiplication on scaled numerators: the exact product
`(a / 2 ^ 54) * (b / 2 ^ 54)` is rounded once. -/
def fmulZ (a b : ℤ) : ℤ := roundDoubleZ (a * b) (2 ^ 108)

/-- Double-precision addition on scaled numerators: the exact sum is
rounded once. -/
def faddZ (a b : ℤ) : ℤ := roundDoubleZ (a + b) (2 ^ 54)

/-- Scaled numerator of `Todo.priority_score`: Python evaluates
`(self.importance * 0.6) + (self.urgency * 0.4)`, converting each integer
operand to a double exactly (`i * 2 ^ 54` at our scale). -/
def priorityNum (importance urgency : ℤ) : ℤ :=
  faddZ (fmulZ (importance * 2 ^ 54) d06Z) (fmulZ (urgency * 2 ^ 54) d04Z)

/-- `Todo.priority_score` from `models.py`:
`(self.importance * 0.6) + (self.urgency * 0.4)` in Python float
arithmetic, as an exact rational. -/
def priority_score (importance urgency : ℤ) : ℚ :=
  (priorityNum importance urgency : ℚ) / 2 ^ 54

/-! ## JSON values and responses -/


/-- JSON values, as produced by the response serializers. -/
inductive JsonVal where
  | str (s : String)
  | int (n : ℤ)
  | num (q : ℚ)
  | bool (b : Bool)
  | null
  | arr (elems : List JsonVal)
  | obj (fields : List (String × JsonVal))

/-- The keys of a JSON object (a field list). -/
def jsonKeys (fields : List (String × JsonVal)) : List String :=
  fields.map Prod.fst

/-- An HTTP response: status code plus JSON object body. -/
structure Response where
  status : ℕ
  body : List (String × JsonVal)

/-- An error response, `{"error": msg}` with the given status, as produced by
the handlers in `api.py` and by `login_required` in `auth.py`. -/
def errorResponse (status : ℕ) (msg : String) : Response :=
  ⟨status, [("error", JsonVal.str msg)]⟩

/-! ## Data model (`models.py`) -/

/-- A row of the `users` table.  `password_hash` stores the salted hash
produced by `generate_password_hash`; timestamps are abstract instants
(modelled as naturals). -/
structure UserRec where
  id : ℕ
  email : String
  username : String
  password_hash : String
  created_at : ℕ
  deriving DecidableEq

/-- Stand-in for the werkzeug function `generate_password_hash` (an external library
collaborator): an injective one-way tagging of the password. -/
def generate_password_hash (password : String) : String :=
  "pbkdf2-sha256$" ++ password

/-- `User.check_password` from `models.py`: compare the stored hash against
the hash of the supplied password. -/
def check_password (u : UserRec) (password : String) : Bool :=
  u.password_hash == generate_password_hash password

/-- Timestamp rendering used by `created_at.isoformat()`. -/
def isoformat (t : ℕ) : String := toString t

/-- `User.to_dict` from `models.py`: id, username and creation time, plus the
email exactly when `include_email` is set; the password hash is never
serialized. -/
def UserRec.to_dict (u : UserRec) (include_email : Bool) : List (String × JsonVal) :=
  let data := [("id", JsonVal.int u.id),
               ("username", JsonVal.str u.username),
               ("created_at", JsonVal.str (isoformat u.created_at))]
  if include_email then data ++ [("email", JsonVal.str u.email)] else data

/-- A row of the `todos` table (`models.py`). -/
structure Todo where
  id : ℕ
  title : String
  description : Option String
  owner_id : ℕ
  status : String
  importance : ℤ
  urgency : ℤ
  created_at : ℕ
  updated_at : ℕ
  deriving DecidableEq

/-- `Todo.priority_score` applied to the columns of a row. -/
def Todo.score (t : Todo) : ℚ := priority_score t.importance t.urgency

/-- `Todo.get_level_name` from `models.py`: the `levels` dictionary with a
`"Medium"` default. -/
def get_level_name (level : ℤ) : String :=
  (([(1, "Low"), (2, "Medium"), (3, "High"), (4, "Critical")] :
      List (ℤ × String)).lookup level).getD "Medium"

/-- The level-1 (Low) SVG icon: yellow circle. -/
def svgLow : String :=
  "<svg width=\"16\" height=\"16\" viewBox=\"0 0 16 16\" " ++
  "xmlns=\"http://www.w3.org/2000/svg\">" ++
  "<circle cx=\"8\" cy=\"8\" r=\"7\" fill=\"#FFC107\"/></svg>"

/-- The level-2 (Medium) SVG icon: deep orange triangle. -/
def svgMedium : String :=
  "<svg width=\"16\" height=\"16\" viewBox=\"0 0 16 16\" " ++
  "xmlns=\"http://www.w3.org/2000/svg\">" ++
  "<path d=\"M8 2 L14 14 L2 14 Z\" fill=\"#FF7811\"/></svg>"

/-- The level-3 (High) SVG icon: red square. -/
def svgHigh : String :=
  "<svg width=\"16\" height=\"16\" viewBox=\"0 0 16 16\" " ++
  "xmlns=\"http://www.w3.org/2000/svg\">" ++
  "<rect x=\"2\" y=\"2\" width=\"12\" height=\"12\" fill=\"#F44336\"/>" ++
  "</svg>"

/-- The level-4 (Critical) SVG icon: blue star. -/
def svgCritical : String :=
  "<svg width=\"16\" height=\"16\" viewBox=\"0 0 16 16\" " ++
  "xmlns=\"http://www.w3.org/2000/svg\">" ++
  "<path d=\"M8 1 L10 6 L15 7 L11 11 L12 16 L8 13 L4 16 " ++
  "L5 11 L1 7 L6 6 Z\" fill=\"#2196F3\"/></svg>"

/-- The default branch of `Todo.get_level_icon`: the source repeats the
level-2 SVG literal as the dictionary-lookup default. -/
def svgDefault : String :=
  "<svg width=\"16\" height=\"16\" viewBox=\"0 0 16 16\" " ++
  "xmlns=\"http://www.w3.org/2000/svg\">" ++
  "<path d=\"M8 2 L14 14 L2 14 Z\" fill=\"#FF7811\"/></svg>"

/-- `Todo.get_level_icon` from `models.py`: the `icons` dictionary with the
repeated level-2 literal as default. -/
def get_level_icon (level : ℤ) : String :=
  (([(1, svgLow), (2, svgMedium), (3, svgHigh), (4, svgCritical)] :
      List (ℤ × String)).lookup level).getD svgDefault

/-- `Todo.to_dict` from `models.py`; `owner` is the row joined through the
`owner_id` foreign key (`self.owner.to_dict() if self.owner else None`,
with `include_email` left at its `False` default). -/
def Todo.to_dict (t : Todo) (owner : Option UserRec) : List (String × JsonVal) :=
  [("id", JsonVal.int t.id),
   ("title", JsonVal.str t.title),
   ("description", (t.description.map JsonVal.str).getD JsonVal.null),
   ("owner", (owner.map (fun o => JsonVal.obj (o.to_dict false))).getD JsonVal.null),
   ("status", JsonVal.str t.status),
   ("importance", JsonVal.int t.importance),
   ("urgency", JsonVal.int t.urgency),
   ("importance_label", JsonVal.str (get_level_name t.importance)),
   ("urgency_label", JsonVal.str (get_level_name t.urgency)),
   ("importance_icon", JsonVal.str (get_level_icon t.importance)),
   ("urgency_icon", JsonVal.str (get_level_icon t.urgency)),
   ("priority_score", JsonVal.num (t.score)),
   ("created_at", JsonVal.str (isoformat t.created_at)),
   ("updated_at", JsonVal.str (isoformat t.updated_at))]

/-- A row of the `categories` table (referenced by `api.py`; the model class
itself is part of the item variant). -/
structure Category where
  id : ℕ
  name : String
  description : Option String
  deriving DecidableEq

/-- A row of the `items` table, with the columns used by the `api.py`
handlers and described in the Item data model of the specification. -/
structure Item where
  id : ℕ
  title : String
  description : Option String
  category_id : Option ℕ
  status : String
  owner_id : ℕ
  created_at : ℕ
  deriving DecidableEq

/-- The persistent store: one list of rows per table. -/
structure Db where
  users : List UserRec
  items : List Item
  categories : List Category
  todos : List Todo
  deriving DecidableEq

/-- `db.session.get(User, id)`: primary-key lookup. -/
def Db.getUser (db : Db) (id : ℕ) : Option UserRec :=
  db.users.find? (fun u => u.id == id)

/-- `db.session.get(Item, id)`: primary-key lookup. -/
def Db.getItem (db : Db) (id : ℕ) : Option Item :=
  db.items.find? (fun i => i.id == id)

/-- `db.session.get(Category, id)`: primary-key lookup. -/
def Db.getCategory (db : Db) (id : ℕ) : Option Category :=
  db.categories.find? (fun c => c.id == id)

/-- Commit an updated item row in place (same primary key). -/
def Db.setItem (db : Db) (item : Item) : Db :=
  { db with items := db.items.map (fun i => if i.id == item.id then item else i) }

/-! ## Token service and authorization guard (`auth.py`) -/

/-- `TOKEN_EXPIRATION_HOURS` from `auth.py`. -/
def TOKEN_EXPIRATION_HOURS : ℕ := 24

/-- The JWT claims written by `generate_token`. -/
structure TokenPayload where
  user_id : ℕ
  exp : ℕ
  iat : ℕ
  deriving DecidableEq

/-- A bearer token as seen by `decode_token`: either a payload signed under
some key (HS256), or a blob that fails JWT parsing altogether. -/
inductive Token where
  | signed (payload : TokenPayload) (key : String)
  | malformed
  deriving DecidableEq

/-- `generate_token` from `auth.py`: sign the user id with a 24-hour expiry. -/
def generate_token (secret : String) (now : ℕ) (user_id : ℕ) : Token :=
  Token.signed ⟨user_id, now + TOKEN_EXPIRATION_HOURS * 3600, now⟩ secret

/-- `decode_token` from `auth.py`: `jwt.decode` verifies the signature and
the `exp` claim; both `ExpiredSignatureError` and `InvalidTokenError` are
caught and collapse to `None`. -/
def decode_token (secret : String) (now : ℕ) (t : Token) : Option TokenPayload :=
  match t with
  | Token.malformed => none
  | Token.signed payload key =>
    if key ≠ secret then none
    else if payload.exp ≤ now then none
    else some payload

/-- The `Authorization` header of a request, as classified by
`get_current_user`: absent, present with a scheme other than `Bearer`, or a
bearer token. -/
inductive AuthHeader where
  | missing
  | wrongScheme
  | bearer (t : Token)
  deriving DecidableEq

/-- `get_current_user` from `auth.py`: extract the bearer token, decode it,
then resolve the embedded `user_id` against the users table. -/
def get_current_user (secret : String) (now : ℕ) (db : Db) (h : AuthHeader) :
    Option UserRec :=
  match h with
  | AuthHeader.missing => none
  | AuthHeader.wrongScheme => none
  | AuthHeader.bearer t =>
    match decode_token secret now t with
    | none => none
    | some payload => db.getUser payload.user_id

/-- `login_required` from `auth.py`: run the wrapped handler with the
resolved user, or answer 401 with the generic message. -/
def login_required (secret : String) (now : ℕ) (db : Db) (h : AuthHeader)
    (handler : UserRec → Response) : Response :=
  match get_current_user secret now db h with
  | none => errorResponse 401 "Authentication required"
  | some user => handler user

/-! ## Request schemas (`schemas.py`) -/

/-- A JSON field of a request object: absent from the payload, present as
`null`, or present with a value. -/
inductive JsonField (α : Type) where
  | absent
  | null
  | val (a : α)
  deriving DecidableEq

/-- Pydantic maps an absent optional field and an explicit `null` to the
same `None` sentinel. -/
def JsonField.toOption {α : Type} : JsonField α → Option α
  | JsonField.absent => none
  | JsonField.null => none
  | JsonField.val a => some a

/-- Stand-in for the pydantic type `EmailStr` (an external validation library):
a well-formed address contains an `@` separating nonempty parts. -/
def validEmailFormat (s : String) : Bool :=
  let cs := s.toList
  let local_ := cs.takeWhile (fun c => c ≠ '@')
  match cs.dropWhile (fun c => c ≠ '@') with
  | '@' :: domain => !local_.isEmpty && !domain.isEmpty && !domain.contains '@'
  | _ => false

/-- The username rule of `RegisterRequest`: alphanumeric once underscores
and hyphens are stripped (the Python `isalnum` method is false on empty input). -/
def usernameAlphanumeric (v : String) : Bool :=
  let stripped := v.toList.filter (fun c => c ≠ '_' && c ≠ '-')
  !stripped.isEmpty && stripped.all Char.isAlphanum

/-- `RegisterRequest` from `schemas.py`: email format, username length in
`[3, 120]` and alphanumeric, password length at least 8. -/
def validRegisterRequest (email username password : String) : Bool :=
  validEmailFormat email &&
  (3 ≤ username.length && username.length ≤ 120) &&
  usernameAlphanumeric username &&
  8 ≤ password.length

/-- Title constraint of `ItemCreateRequest`/`ItemUpdateRequest`: length in
`[1, 200]`. -/
def validTitle (s : String) : Bool :=
  1 ≤ s.length && s.length ≤ 200

/-- Status pattern of the item schemas: `^(active|inactive|archived)$`. -/
def validItemStatus (s : String) : Bool :=
  s == "active" || s == "inactive" || s == "archived"

/-- The raw JSON payload of a PATCH `/api/items/<id>` request, field by
field. -/
structure ItemUpdateJson where
  title : JsonField String
  description : JsonField String
  category_id : JsonField ℕ
  status : JsonField String
  deriving DecidableEq

/-- `ItemUpdateRequest` after validation: every optional field defaults to
`None`, so absent and `null` are indistinguishable downstream. -/
structure ItemUpdateRequest where
  title : Option String
  description : Option String
  category_id : Option ℕ
  status : Option String
  deriving DecidableEq

/-- Pydantic validation of `ItemUpdateRequest`: supplied title and status
values must satisfy their constraints; `None` passes. -/
def ItemUpdateRequest.parse (j : ItemUpdateJson) : Option ItemUpdateRequest :=
  let t := j.title.toOption
  let s := j.status.toOption
  if (t.all validTitle) && (s.all validItemStatus) then
    some ⟨t, j.description.toOption, j.category_id.toOption, s⟩
  else none

/-! ## API surface (`api.py`) -/

/-- Rendering of a token into the JSON response body. -/
def tokenRepr : Token → String
  | Token.signed p k =>
    "jwt:" ++ toString p.user_id ++ ":" ++ toString p.exp ++ ":" ++
      toString p.iat ++ ":" ++ k
  | Token.malformed => "invalid"

/-- Autoincrement primary key for a new users row. -/
def Db.nextUserId (db : Db) : ℕ :=
  (db.users.map (fun u => u.id)).foldr max 0 + 1

/-- `register` from `api.py`, after `validate_request_json`: pydantic
validation first (its field-error body is abstracted to a single message),
then the email-duplicate check, then the username-duplicate check, then the
insert and the 201 response carrying a fresh token and the user with email
included. -/
def register (secret : String) (now : ℕ) (db : Db)
    (email username password : String) : Response × Db :=
  if !validRegisterRequest email username password then
    (errorResponse 400 "validation error", db)
  else if (db.users.find? (fun u => u.email == email)).isSome then
    (errorResponse 400 "Email already registered", db)
  else if (db.users.find? (fun u => u.username == username)).isSome then
    (errorResponse 400 "Username already taken", db)
  else
    let user : UserRec :=
      ⟨db.nextUserId, email, username, generate_password_hash password, now⟩
    let token := generate_token secret now user.id
    (⟨201, [("message", JsonVal.str "User registered successfully"),
            ("token", JsonVal.str (tokenRepr token)),
            ("user", JsonVal.obj (user.to_dict true))]⟩,
     { db with users := db.users ++ [user] })

/-- `login` from `api.py`, after `validate_request_json`: look the user up
by email and check the password; the 200 response carries a fresh token and
the user with email included. -/
def login (secret : String) (now : ℕ) (db : Db)
    (email password : String) : Response :=
  match db.users.find? (fun u => u.email == email) with
  | none => errorResponse 401 "Invalid email or password"
  | some user =>
    if !check_password user password then
      errorResponse 401 "Invalid email or password"
    else
      ⟨200, [("message", JsonVal.str "Login successful"),
             ("token", JsonVal.str (tokenRepr (generate_token secret now user.id))),
             ("user", JsonVal.obj (user.to_dict true))]⟩

/-- `get_current_user_info` from `api.py` (GET `/api/auth/me`): the resolved
user, email included. -/
def get_current_user_info (current_user : UserRec) : Response :=
  ⟨200, [("user", JsonVal.obj (current_user.to_dict true))]⟩

/-- Serialization of an item row (`Item.to_dict` belongs to the item-variant
model file that is not part of the source tree; the claims never inspect
these fields). -/
def Item.to_dict (i : Item) : List (String × JsonVal) :=
  [("id", JsonVal.int i.id),
   ("title", JsonVal.str i.title),
   ("description", (i.description.map JsonVal.str).getD JsonVal.null),
   ("category_id", (i.category_id.map (fun c => JsonVal.int c)).getD JsonVal.null),
   ("status", JsonVal.str i.status),
   ("created_at", JsonVal.str (isoformat i.created_at))]

/-- `get_item` from `api.py`: primary-key lookup, 404 when absent, 403 when
the owner differs from the caller, otherwise 200 with the row. -/
def get_item (db : Db) (item_id : ℕ) (current_user : UserRec) : Response :=
  match db.getItem item_id with
  | none => errorResponse 404 "Item not found"
  | some item =>
    if item.owner_id ≠ current_user.id then errorResponse 403 "Unauthorized"
    else ⟨200, [("item", JsonVal.obj item.to_dict)]⟩

/-- `update_item` from `api.py`: lookup, ownership check, validation, then
the fields supplied as non-`None` are applied in source order (title,
description, category with existence check, status) and committed.  Each
request runs in a single transaction rolled back at teardown unless
committed, so every failure path leaves the store unchanged. -/
def update_item (db : Db) (item_id : ℕ) (current_user : UserRec)
    (j : ItemUpdateJson) : Response × Db :=
  match db.getItem item_id with
  | none => (errorResponse 404 "Item not found", db)
  | some item =>
    if item.owner_id ≠ current_user.id then (errorResponse 403 "Unauthorized", db)
    else
      match ItemUpdateRequest.parse j with
      | none => (errorResponse 400 "validation error", db)
      | some data =>
        let item1 := match data.title with
          | some t => { item with title := t }
          | none => item
        let item2 := match data.description with
          | some d => { item1 with description := some d }
          | none => item1
        match data.category_id with
        | some cid =>
          (match db.getCategory cid with
           | none => (errorResponse 404 "Category not found", db)
           | some _ =>
             let item3 := { item2 with category_id := some cid }
             let item4 := match data.status with
               | some s => { item3 with status := s }
               | none => item3
             (⟨200, [("item", JsonVal.obj item4.to_dict)]⟩, db.setItem item4))
        | none =>
          let item4 := match data.status with
            | some s => { item2 with status := s }
            | none => item2
          (⟨200, [("item", JsonVal.obj item4.to_dict)]⟩, db.setItem item4)

/-- `delete_item` from `api.py`: lookup, ownership check, then delete and
commit. -/
def delete_item (db : Db) (item_id : ℕ) (current_user : UserRec) :
    Response × Db :=
  match db.getItem item_id with
  | none => (errorResponse 404 "Item not found", db)
  | some item =>
    if item.owner_id ≠ current_user.id then (errorResponse 403 "Unauthorized", db)
    else
      ({ status := 200, body := [("message", JsonVal.str "Item deleted successfully")] },
       { db with items := db.items.filter (fun i => !(i.id == item_id)) })

/-! ## Todo listing (spec-modelled) -/

/-- Modelled from the spec: the todo-variant route handlers (GET
`/api/todos` among them) are not part of the source tree, only their tests
are.  Per the spec, the listing is "ordered by priority score descending,
ties broken by creation time ascending": `a` may precede `b` when `a`
outranks `b` or when the scores tie and `a` was created no later. -/
def todoBefore (a b : Todo) : Prop :=
  b.score < a.score ∨ (a.score = b.score ∧ a.created_at ≤ b.created_at)

instance : DecidableRel todoBefore := fun a b => by
  unfold todoBefore; exact inferInstance

instance : IsTotal Todo todoBefore := by
  constructor
  intro a b
  rcases lt_trichotomy a.score b.score with h | h | h
  · exact Or.inr (Or.inl h)
  · by_cases hc : a.created_at ≤ b.created_at
    · exact Or.inl (Or.inr ⟨h, hc⟩)
    · exact Or.inr (Or.inr ⟨h.symm, le_of_not_le hc⟩)
  · exact Or.inl (Or.inl h)

instance : IsTrans Todo todoBefore := by
  constructor
  rintro a b c (hab | ⟨hab, hab'⟩) (hbc | ⟨hbc, hbc'⟩)
  · exact Or.inl (hbc.trans hab)
  · exact Or.inl (by rw [← hbc]; exact hab)
  · exact Or.inl (by rw [hab]; exact hbc)
  · exact Or.inr ⟨hab.trans hbc, le_trans hab' hbc'⟩

/-- Modelled from the spec: the rows returned by GET `/api/todos` — the
todos of the caller, sorted by the dual key. -/
def get_todos_rows (db : Db) (current_user : UserRec) : List Todo :=
  List.insertionSort todoBefore
    (db.todos.filter (fun t => t.owner_id == current_user.id))

/-- Modelled from the spec: the GET `/api/todos` response, each row
serialized through `Todo.to_dict` with its joined owner. -/
def get_todos (db : Db) (current_user : UserRec) : Response :=
  ⟨200, [("todos", JsonVal.arr ((get_todos_rows db current_user).map
      (fun t => JsonVal.obj (t.to_dict (db.getUser t.owner_id)))))]⟩

/-- The net effect of a successful `update_item` on the stored row: each
field supplied as non-`None` overwrites, the rest keep their stored value. -/
def applyUpdate (item : Item) (data : ItemUpdateRequest) : Item :=
  { item with
    title := data.title.getD item.title
    description := (data.description.map Option.some).getD item.description
    category_id := (data.category_id.map Option.some).getD item.category_id
    status := data.status.getD item.status }

/-! ## Sample fixtures (used by the concrete-input witnesses) -/

/-- A sample user. -/
def aliceU : UserRec := ⟨1, "a@x.com", "alice", generate_password_hash "password1", 0⟩

/-- A second sample user. -/
def bobU : UserRec := ⟨2, "b@x.com", "bob", generate_password_hash "password2", 0⟩

/-- A sample item owned by `aliceU`. -/
def item1 : Item := ⟨1, "Item", none, none, "active", 1, 0⟩

/-- A sample category. -/
def cat1 : Category := ⟨1, "general", none⟩

/-- A sample store holding both users, the item and the category. -/
def sampleDb : Db := ⟨[aliceU, bobU], [item1], [cat1], []⟩

/-- An empty store. -/
def emptyDb : Db := ⟨[], [], [], []⟩

/-- A sample todo owned by `aliceU`. -/
def todo1 : Todo := ⟨1, "T", none, 1, "pending", 2, 2, 0, 0⟩

/-- A PATCH payload carrying only a description, with `category_id`
explicitly `null` and the other keys absent. -/
def patchDescOnly : ItemUpdateJson :=
  ⟨JsonField.absent, JsonField.val "x", JsonField.null, JsonField.absent⟩

/-- A PATCH payload carrying a new title together with a dangling category
reference. -/
def patchBadCategory : ItemUpdateJson :=
  ⟨JsonField.val "New", JsonField.absent, JsonField.val 99, JsonField.absent⟩

/-! ## Helper lemmas -/

lemma priority_score_bridge (i u : ℤ)
    (h1 : 2 ^ 54 ≤ priorityNum i u) (h2 : priorityNum i u ≤ 4 * 2 ^ 54)
    (h3 : |5 * priorityNum i u - (3 * i + 2 * u) * 2 ^ 54| ≤ 80) :
    1 ≤ priority_score i u ∧ priority_score i u ≤ 4 ∧
      |priority_score i u - ((i : ℚ) * (6 / 10) + (u : ℚ) * (4 / 10))| ≤ 1 / 2 ^ 50 := by
  set n : ℤ := priorityNum i u with hn
  have hps : priority_score i u = (n : ℚ) / 2 ^ 54 := rfl
  refine ⟨?_, ?_, ?_⟩
  · rw [hps, le_div_iff₀ (by positivity)]
    exact_mod_cast h1
  · rw [hps, div_le_iff₀ (by positivity)]
    exact_mod_cast h2
  · have key : priority_score i u - ((i : ℚ) * (6 / 10) + (u : ℚ) * (4 / 10)) =
        ((5 * n - (3 * i + 2 * u) * 2 ^ 54 : ℤ) : ℚ) / (5 * 2 ^ 54) := by
      rw [hps]; push_cast; ring
    rw [key, abs_div, abs_of_pos (show (0 : ℚ) < 5 * 2 ^ 54 by norm_num),
      div_le_iff₀ (show (0 : ℚ) < 5 * 2 ^ 54 by norm_num), ← Int.cast_abs]
    refine le_trans (show ((|5 * n - (3 * i + 2 * u) * 2 ^ 54| : ℤ) : ℚ) ≤ 80 by
      exact_mod_cast h3) (by norm_num)

lemma parse_fields {j : ItemUpdateJson} {data : ItemUpdateRequest}
    (h : ItemUpdateRequest.parse j = some data) :
    data = ⟨j.title.toOption, j.description.toOption,
            j.category_id.toOption, j.status.toOption⟩ := by
  unfold ItemUpdateRequest.parse at h
  by_cases hc : (j.title.toOption.all validTitle) && (j.status.toOption.all validItemStatus)
  · simp only [hc, if_true] at h
    exact (Option.some_injective _ h).symm
  · simp [hc] at h

lemma find_replace (l : List Item) (pk : ℕ) (it old : Item)
    (h : l.find? (fun i => i.id == pk) = some old) (hid : it.id = old.id) :
    (l.map (fun i => if i.id == it.id then it else i)).find?
      (fun i => i.id == pk) = some it := by
  have hold : (old.id == pk) = true := by
    have := List.find?_some h
    simpa using this
  induction l with
  | nil => simp at h
  | cons a l ih =>
    by_cases ha : (a.id == pk) = true
    · rw [List.find?_cons] at h
      simp only [ha] at h
      have hao : a = old := by injection h
      have hcond : (a.id == it.id) = true := by
        rw [hid, hao]
        exact Nat.beq_eq_true_eq _ _ |>.mpr rfl
      simp only [List.map_cons, hcond, if_true, List.find?_cons]
      have : (it.id == pk) = true := by
        rw [hid, ← hao]
        exact ha
      simp [this]
    · have hab : (a.id == pk) = false := by
        cases hb : (a.id == pk) with
        | false => rfl
        | true => exact absurd hb ha
      rw [List.find?_cons] at h
      simp only [hab] at h
      have hne : (a.id == it.id) = false := by
        have h1 : old.id = pk := Nat.beq_eq_true_eq _ _ |>.mp hold
        have h2 : a.id ≠ pk := by
          intro hc
          exact ha (by rw [hc]; exact Nat.beq_eq_true_eq _ _ |>.mpr rfl)
        rw [hid, h1]
        exact beq_eq_false_iff_ne.mpr h2
      simp only [List.map_cons, hne, Bool.false_eq_true, if_false, List.find?_cons, hab]
      exact ih h

lemma update_item_success (db : Db) (item_id : ℕ) (cu : UserRec) (j : ItemUpdateJson)
    (item : Item) (data : ItemUpdateRequest)
    (hitem : db.getItem item_id = some item) (hown : item.owner_id = cu.id)
    (hparse : ItemUpdateRequest.parse j = some data)
    (hcat : ∀ cid, data.category_id = some cid → ∃ c, db.getCategory cid = some c) :
    update_item db item_id cu j =
      (⟨200, [("item", JsonVal.obj (applyUpdate item data).to_dict)]⟩,
        db.setItem (applyUpdate item data)) := by
  obtain ⟨dt, dd, dc, ds⟩ := data
  simp only [update_item, hitem]
  rw [if_neg (by simp [hown])]
  simp only [hparse]
  cases dc with
  | none =>
    cases dt <;> cases dd <;> cases ds <;> simp [applyUpdate]
  | some cid =>
    obtain ⟨c, hc⟩ := hcat cid rfl
    simp only [hc]
    cases dt <;> cases dd <;> cases ds <;> simp [applyUpdate]

/-! ## Claim theorems -/

/-- C1: for every user, listing the todos of that user returns exactly
those todos (a permutation of the owner-filtered table) in an order where
priority scores never increase and, whenever two adjacent-or-later todos tie
on score, the one created first appears first. -/
theorem get_todos_sorted_by_priority (db : Db) (current_user : UserRec) :
    (get_todos_rows db current_user).Pairwise
      (fun a b => b.score ≤ a.score ∧ (a.score = b.score → a.created_at ≤ b.created_at))
    ∧ (get_todos_rows db current_user).Perm
      (db.todos.filter (fun t => t.owner_id == current_user.id)) := by
  constructor
  · have hs := List.sorted_insertionSort todoBefore
      (db.todos.filter (fun t => t.owner_id == current_user.id))
    refine List.Pairwise.imp ?_ hs
    intro a b hab
    rcases hab with h | ⟨h, h'⟩
    · exact ⟨le_of_lt h, fun he => absurd he (ne_of_gt h)⟩
    · exact ⟨le_of_eq h.symm, fun _ => h'⟩
  · exact List.perm_insertionSort todoBefore _

/-- C2: for importance and urgency in `[1, 4]`, the priority score is the
float evaluation of `importance * 0.6 + urgency * 0.4` (a total function of
its two arguments), lies in `[1.0, 4.0]`, and agrees with the exact
mathematical value to within `2 ^ (-50)`. -/
theorem priority_score_props (i u : ℤ) (hi1 : 1 ≤ i) (hi4 : i ≤ 4)
    (hu1 : 1 ≤ u) (hu4 : u ≤ 4) :
    1 ≤ priority_score i u ∧ priority_score i u ≤ 4 ∧
      |priority_score i u - ((i : ℚ) * (6 / 10) + (u : ℚ) * (4 / 10))| ≤ 1 / 2 ^ 50 := by
  interval_cases i <;> interval_cases u <;>
    exact priority_score_bridge _ _ (by decide) (by decide) (by decide)

/-- Witness for C2 at the concrete input `(3, 2)` of the endpoint test. -/
theorem priority_score_props_witness :
    1 ≤ priority_score 3 2 ∧ priority_score 3 2 ≤ 4 ∧
      |priority_score 3 2 - (((3 : ℤ) : ℚ) * (6 / 10) + ((2 : ℤ) : ℚ) * (4 / 10))| ≤ 1 / 2 ^ 50 :=
  priority_score_props 3 2 (by decide) (by decide) (by decide) (by decide)

/-- C3: on GET, PATCH and DELETE of a single item, a missing id answers 404
(whoever the caller is, so the existence check runs first), and an existing
id owned by another user answers 403, never 404. -/
theorem single_resource_404_before_403 (db : Db) (item_id : ℕ)
    (current_user : UserRec) (j : ItemUpdateJson) :
    (db.getItem item_id = none →
      get_item db item_id current_user = errorResponse 404 "Item not found" ∧
      (update_item db item_id current_user j).1 = errorResponse 404 "Item not found" ∧
      (delete_item db item_id current_user).1 = errorResponse 404 "Item not found") ∧
    (∀ item, db.getItem item_id = some item → item.owner_id ≠ current_user.id →
      (get_item db item_id current_user).status = 403 ∧
      (update_item db item_id current_user j).1.status = 403 ∧
      (delete_item db item_id current_user).1.status = 403) := by
  constructor
  · intro h
    refine ⟨?_, ?_, ?_⟩ <;> simp [get_item, update_item, delete_item, h]
  · intro item h howner
    refine ⟨?_, ?_, ?_⟩ <;>
      simp [get_item, update_item, delete_item, errorResponse, h, howner]

/-- Witness for C3: in the sample store, a nonexistent id yields 404 for
`bobU`, and the item of `aliceU` yields 403 for `bobU`. -/
theorem single_resource_404_before_403_witness :
    get_item sampleDb 99 bobU = errorResponse 404 "Item not found" ∧
    (get_item sampleDb 1 bobU).status = 403 :=
  ⟨((single_resource_404_before_403 sampleDb 99 bobU
      ⟨JsonField.absent, JsonField.absent, JsonField.absent, JsonField.absent⟩).1 (by rfl)).1,
   ((single_resource_404_before_403 sampleDb 1 bobU
      ⟨JsonField.absent, JsonField.absent, JsonField.absent, JsonField.absent⟩).2
      item1 (by rfl) (by decide)).1⟩

/-- C4: a missing `Authorization` header, a non-Bearer scheme, a malformed
token, a token signed with the wrong key, and an expired token all produce
the identical 401 response with the generic message, on any protected
endpoint — the caller cannot tell the cases apart. -/
theorem auth_failures_indistinguishable (secret : String) (now : ℕ) (db : Db)
    (handler : UserRec → Response) (p pexp : TokenPayload) (k : String)
    (hk : k ≠ secret) (hexp : pexp.exp ≤ now) :
    login_required secret now db AuthHeader.missing handler
        = errorResponse 401 "Authentication required" ∧
    login_required secret now db AuthHeader.wrongScheme handler
        = errorResponse 401 "Authentication required" ∧
    login_required secret now db (AuthHeader.bearer Token.malformed) handler
        = errorResponse 401 "Authentication required" ∧
    login_required secret now db (AuthHeader.bearer (Token.signed p k)) handler
        = errorResponse 401 "Authentication required" ∧
    login_required secret now db (AuthHeader.bearer (Token.signed pexp secret)) handler
        = errorResponse 401 "Authentication required" := by
  refine ⟨rfl, rfl, rfl, ?_, ?_⟩
  · simp [login_required, get_current_user, decode_token, hk]
  · simp [login_required, get_current_user, decode_token, hexp]

/-- Witness for C4 at concrete header shapes: wrong key `"k"` against
secret `"s"`, and a token expired at time 50 checked at time 100. -/
theorem auth_failures_indistinguishable_witness :
    login_required "s" 100 sampleDb AuthHeader.missing get_current_user_info
        = errorResponse 401 "Authentication required" ∧
    login_required "s" 100 sampleDb
        (AuthHeader.bearer (Token.signed ⟨1, 200, 0⟩ "k")) get_current_user_info
        = errorResponse 401 "Authentication required" ∧
    login_required "s" 100 sampleDb
        (AuthHeader.bearer (Token.signed ⟨1, 50, 0⟩ "s")) get_current_user_info
        = errorResponse 401 "Authentication required" := by
  have h := auth_failures_indistinguishable "s" 100 sampleDb get_current_user_info
    ⟨1, 200, 0⟩ ⟨1, 50, 0⟩ "k" (by decide) (by decide)
  exact ⟨h.1, h.2.2.2.1, h.2.2.2.2⟩

/-- C10: a correctly signed, unexpired token whose embedded `user_id`
matches no stored user is rejected with the same 401 response as an
unauthenticated request. -/
theorem ghost_user_token_rejected (secret : String) (now : ℕ) (db : Db)
    (handler : UserRec → Response) (p : TokenPayload)
    (hvalid : now < p.exp) (hghost : db.getUser p.user_id = none) :
    login_required secret now db (AuthHeader.bearer (Token.signed p secret)) handler
        = errorResponse 401 "Authentication required" ∧
    login_required secret now db (AuthHeader.bearer (Token.signed p secret)) handler
        = login_required secret now db AuthHeader.missing handler := by
  have h : login_required secret now db (AuthHeader.bearer (Token.signed p secret)) handler
      = errorResponse 401 "Authentication required" := by
    simp [login_required, get_current_user, decode_token, not_le.mpr hvalid, hghost]
  exact ⟨h, h⟩

/-- Witness for C10: a token for the nonexistent user id 99, expiring at
200, checked at time 100 against the sample store. -/
theorem ghost_user_token_rejected_witness :
    login_required "s" 100 sampleDb
        (AuthHeader.bearer (Token.signed ⟨99, 200, 0⟩ "s")) get_current_user_info
        = errorResponse 401 "Authentication required" :=
  (ghost_user_token_rejected "s" 100 sampleDb get_current_user_info
    ⟨99, 200, 0⟩ (by decide) (by rfl)).1

/-- C5: a register request that passes field validation and whose email is
already taken fails with the email-duplicate error and leaves the store
unchanged, regardless of whether the username also collides — the email
check runs before the username check. -/
theorem register_email_checked_first (secret : String) (now : ℕ) (db : Db)
    (email username password : String)
    (hvalid : validRegisterRequest email username password = true)
    (hemail : (db.users.find? (fun u => u.email == email)).isSome = true) :
    register secret now db email username password
      = (errorResponse 400 "Email already registered", db) := by
  simp [register, hvalid, hemail]

/-- Witness for C5: registering `a@x.com` / `alice` — both already taken by
`aliceU` — yields the email-duplicate error. -/
theorem register_email_checked_first_witness :
    register "s" 7 sampleDb "a@x.com" "alice" "password9"
      = (errorResponse 400 "Email already registered", sampleDb) :=
  register_email_checked_first "s" 7 sampleDb "a@x.com" "alice" "password9"
    (by decide) (by rfl)

/-- C6 helper: on the success path, the row stored under the item id is
exactly the original row with the non-`None` fields applied. -/
lemma update_item_committed_row (db : Db) (item_id : ℕ) (cu : UserRec)
    (j : ItemUpdateJson) (item : Item) (data : ItemUpdateRequest)
    (hitem : db.getItem item_id = some item) (hown : item.owner_id = cu.id)
    (hp : ItemUpdateRequest.parse j = some data)
    (hcat : ∀ cid, data.category_id = some cid → ∃ c, db.getCategory cid = some c) :
    (update_item db item_id cu j).2.getItem item_id = some (applyUpdate item data) := by
  rw [update_item_success db item_id cu j item data hitem hown hp hcat]
  show (db.setItem (applyUpdate item data)).getItem item_id = _
  simp only [Db.setItem, Db.getItem]
  exact find_replace db.items item_id _ item hitem rfl

/-- C6: when a PATCH on an item succeeds, every field sent as `null` or left
out of the payload keeps its stored value, and every field sent with a
non-null value is overwritten with it. -/
theorem update_item_absent_null_semantics (db : Db) (item_id : ℕ) (cu : UserRec)
    (j : ItemUpdateJson) (item : Item)
    (hitem : db.getItem item_id = some item)
    (hsuccess : (update_item db item_id cu j).1.status = 200) :
    ∃ item', (update_item db item_id cu j).2.getItem item_id = some item' ∧
      ((j.title = JsonField.absent ∨ j.title = JsonField.null) →
        item'.title = item.title) ∧
      ((j.description = JsonField.absent ∨ j.description = JsonField.null) →
        item'.description = item.description) ∧
      ((j.category_id = JsonField.absent ∨ j.category_id = JsonField.null) →
        item'.category_id = item.category_id) ∧
      ((j.status = JsonField.absent ∨ j.status = JsonField.null) →
        item'.status = item.status) ∧
      (∀ t, j.title = JsonField.val t → item'.title = t) ∧
      (∀ d, j.description = JsonField.val d → item'.description = some d) ∧
      (∀ c, j.category_id = JsonField.val c → item'.category_id = some c) ∧
      (∀ s, j.status = JsonField.val s → item'.status = s) := by
  by_cases hown : item.owner_id = cu.id
  · cases hp : ItemUpdateRequest.parse j with
    | none =>
      exfalso
      simp [update_item, hitem, hown, hp, errorResponse] at hsuccess
    | some data =>
      have hdata := parse_fields hp
      subst hdata
      have hcat : ∀ cid, j.category_id.toOption = some cid →
          ∃ c, db.getCategory cid = some c := by
        intro cid hcid
        cases hc : db.getCategory cid with
        | some c => exact ⟨c, rfl⟩
        | none =>
          exfalso
          have h404 : (update_item db item_id cu j).1.status = 404 := by
            simp [update_item, hitem, hown, hp, hcid, hc, errorResponse]
          exact absurd (h404.symm.trans hsuccess) (by decide)
      refine ⟨applyUpdate item ⟨j.title.toOption, j.description.toOption,
          j.category_id.toOption, j.status.toOption⟩,
        update_item_committed_row db item_id cu j item _ hitem hown hp hcat,
        ?_, ?_, ?_, ?_, ?_, ?_, ?_, ?_⟩
      · rintro (h | h) <;> simp [applyUpdate, h, JsonField.toOption]
      · rintro (h | h) <;> simp [applyUpdate, h, JsonField.toOption]
      · rintro (h | h) <;> simp [applyUpdate, h, JsonField.toOption]
      · rintro (h | h) <;> simp [applyUpdate, h, JsonField.toOption]
      · intro t ht
        simp [applyUpdate, ht, JsonField.toOption]
      · intro d hd
        simp [applyUpdate, hd, JsonField.toOption]
      · intro c hc
        simp [applyUpdate, hc, JsonField.toOption]
      · intro s hs
        simp [applyUpdate, hs, JsonField.toOption]
  · exfalso
    simp [update_item, hitem, hown, errorResponse] at hsuccess

/-- Witness for C6: patching only the description of `item1` succeeds and
keeps title, category and status while overwriting the description. -/
theorem update_item_absent_null_semantics_witness :
    ∃ item', (update_item sampleDb 1 aliceU patchDescOnly).2.getItem 1 = some item' ∧
      ((patchDescOnly.title = JsonField.absent ∨ patchDescOnly.title = JsonField.null) →
        item'.title = item1.title) ∧
      ((patchDescOnly.description = JsonField.absent ∨
          patchDescOnly.description = JsonField.null) →
        item'.description = item1.description) ∧
      ((patchDescOnly.category_id = JsonField.absent ∨
          patchDescOnly.category_id = JsonField.null) →
        item'.category_id = item1.category_id) ∧
      ((patchDescOnly.status = JsonField.absent ∨ patchDescOnly.status = JsonField.null) →
        item'.status = item1.status) ∧
      (∀ t, patchDescOnly.title = JsonField.val t → item'.title = t) ∧
      (∀ d, patchDescOnly.description = JsonField.val d → item'.description = some d) ∧
      (∀ c, patchDescOnly.category_id = JsonField.val c → item'.category_id = some c) ∧
      (∀ s, patchDescOnly.status = JsonField.val s → item'.status = s) :=
  update_item_absent_null_semantics sampleDb 1 aliceU patchDescOnly item1 (by rfl) (by rfl)

/-- C7: when a PATCH names a category id that does not resolve, the request
fails with 404 "Category not found" and the store is left exactly as it
was — no field from the failed request is persisted. -/
theorem update_item_invalid_category_atomic (db : Db) (item_id : ℕ) (cu : UserRec)
    (j : ItemUpdateJson) (item : Item) (data : ItemUpdateRequest) (cid : ℕ)
    (hitem : db.getItem item_id = some item) (hown : item.owner_id = cu.id)
    (hp : ItemUpdateRequest.parse j = some data)
    (hcid : data.category_id = some cid)
    (hc : db.getCategory cid = none) :
    update_item db item_id cu j = (errorResponse 404 "Category not found", db) := by
  simp [update_item, hitem, hown, hp, hcid, hc]

/-- Witness for C7: patching `item1` with a new title and the dangling
category id 99 answers 404 and leaves the sample store untouched. -/
theorem update_item_invalid_category_atomic_witness :
    update_item sampleDb 1 aliceU patchBadCategory
      = (errorResponse 404 "Category not found", sampleDb) :=
  update_item_invalid_category_atomic sampleDb 1 aliceU patchBadCategory item1
    ⟨some "New", none, some 99, none⟩ 99 (by rfl) (by rfl) (by rfl) (by rfl) (by rfl)

/-- C8: serialized users never expose password data; the email key is
present exactly when `include_email` is set; a user nested inside a todo
response is serialized without email; and the own-profile/auth responses
(me, register, login) serialize the user with email included. -/
theorem user_serialization_email_policy (u o : UserRec) (b : Bool) (t : Todo)
    (secret : String) (now : ℕ) (db : Db) (email username password : String) :
    ("password" ∉ jsonKeys (u.to_dict b) ∧ "password_hash" ∉ jsonKeys (u.to_dict b)) ∧
    ("email" ∈ jsonKeys (u.to_dict b) ↔ b = true) ∧
    ((t.to_dict (some o)).lookup "owner" = some (JsonVal.obj (o.to_dict false))) ∧
    ("email" ∉ jsonKeys (o.to_dict false)) ∧
    ((get_current_user_info u).body.lookup "user" = some (JsonVal.obj (u.to_dict true))) ∧
    ((register secret now db email username password).1.status = 201 →
      ∃ nu : UserRec, (register secret now db email username password).1.body.lookup "user"
        = some (JsonVal.obj (nu.to_dict true))) ∧
    ((login secret now db email password).status = 200 →
      ∃ lu : UserRec, (login secret now db email password).body.lookup "user"
        = some (JsonVal.obj (lu.to_dict true))) := by
  refine ⟨?_, ?_, ?_, ?_, ?_, ?_, ?_⟩
  · cases b <;> simp [UserRec.to_dict, jsonKeys]
  · cases b <;> simp [UserRec.to_dict, jsonKeys]
  · rfl
  · simp [UserRec.to_dict, jsonKeys]
  · rfl
  · intro h
    simp only [register] at h ⊢
    split_ifs at h ⊢ with h1 h2 h3
    · simp [errorResponse] at h
    · simp [errorResponse] at h
    · simp [errorResponse] at h
    · exact ⟨⟨db.nextUserId, email, username, generate_password_hash password, now⟩, rfl⟩
  · intro h
    cases hf : db.users.find? (fun v => v.email == email) with
    | none =>
      rw [login] at h
      rw [hf] at h
      simp [errorResponse] at h
    | some v =>
      by_cases hcp : check_password v password
      · refine ⟨v, ?_⟩
        rw [login, hf]
        simp only [hcp]
        rfl
      · exfalso
        rw [login] at h
        rw [hf] at h
        simp [hcp, errorResponse] at h

/-- Witness for C8: `aliceU` serialized with email carries the key, and a
successful register at the empty store nests the new user with email. -/
theorem user_serialization_email_policy_witness :
    ("email" ∈ jsonKeys (aliceU.to_dict true) ↔ true = true) ∧
    (∃ nu : UserRec, (register "s" 0 emptyDb "a@x.com" "alice" "password1").1.body.lookup "user"
        = some (JsonVal.obj (nu.to_dict true))) :=
  have h := user_serialization_email_policy aliceU bobU true todo1
    "s" 0 emptyDb "a@x.com" "alice" "password1"
  ⟨h.2.1, h.2.2.2.2.2.1 (by rfl)⟩

/-- C9: levels 1 to 4 map to Low, Medium, High and Critical with their
keyed SVG icons, and any level outside `[1, 4]` falls back to the Medium
label and the level-2 icon. -/
theorem level_labels_and_icons (lvl : ℤ) (hout : lvl < 1 ∨ 4 < lvl) :
    get_level_name 1 = "Low" ∧ get_level_name 2 = "Medium" ∧
    get_level_name 3 = "High" ∧ get_level_name 4 = "Critical" ∧
    get_level_icon 1 = svgLow ∧ get_level_icon 2 = svgMedium ∧
    get_level_icon 3 = svgHigh ∧ get_level_icon 4 = svgCritical ∧
    get_level_name lvl = "Medium" ∧ get_level_icon lvl = get_level_icon 2 := by
  have h1 : lvl ≠ 1 := by omega
  have h2 : lvl ≠ 2 := by omega
  have h3 : lvl ≠ 3 := by omega
  have h4 : lvl ≠ 4 := by omega
  have b1 : (lvl == (1 : ℤ)) = false := beq_eq_false_iff_ne.mpr h1
  have b2 : (lvl == (2 : ℤ)) = false := beq_eq_false_iff_ne.mpr h2
  have b3 : (lvl == (3 : ℤ)) = false := beq_eq_false_iff_ne.mpr h3
  have b4 : (lvl == (4 : ℤ)) = false := beq_eq_false_iff_ne.mpr h4
  refine ⟨rfl, rfl, rfl, rfl, rfl, rfl, rfl, rfl, ?_, ?_⟩
  · simp [get_level_name, List.lookup, b1, b2, b3, b4]
  · simp [get_level_icon, List.lookup, b1, b2, b3, b4]
    rfl

/-- Witness for C9 at the out-of-range level 0. -/
theorem level_labels_and_icons_witness :
    get_level_name 0 = "Medium" ∧ get_level_icon 0 = get_level_icon 2 :=
  have h := level_labels_and_icons 0 (by decide)
  ⟨h.2.2.2.2.2.2.2.2.1, h.2.2.2.2.2.2.2.2.2⟩
